import Mathlib

/-!
Verification of the caching core of the travel-itinerary service
(`src/config/redis.js`) and of the itinerary controller that drives it
(`src/controllers/itineraryController.js`).

The Redis client is modelled as an explicit state (`RedisState`) holding a
connected flag, a transport-failure flag and an association list of entries
(key, serialized payload, TTL).  Keys are byte-level strings modelled as
`List Char`; the glob pattern `p*` used by `KEYS` is modelled as the
exact-prefix match it performs for patterns whose stem contains no glob
metacharacter (the stems built by the code are fixed words plus MongoDB
ObjectId hex strings).  Serialized payloads are modelled at the JSON level:
`JSON.stringify` output of a JSON-representable value is the tag
`JsStr.jsonOf v` (never the empty string, so it is truthy), and any other
stored string is `JsStr.raw s`, on which `JSON.parse` throws.
-/

namespace TravelCache

/-- JSON-representable values (the payloads the service caches). -/
inductive Json where
  | null : Json
  | bool (b : Bool) : Json
  | num (n : Int) : Json
  | str (s : String) : Json
  | arr (elems : List Json) : Json
  | obj (fields : List (String × Json)) : Json

/-- Primitive JSON values, the field values of the flat query-filter records
the controllers build from `req.query` (strings and numbers; `status`,
`isPublic` and the like are strings when present). -/
inductive JPrim where
  | num (n : Int) : JPrim
  | str (s : String) : JPrim
  | bool (b : Bool) : JPrim
  | jnull : JPrim
deriving DecidableEq

/-- A filter record as the controllers pass it to the cache layer: an ordered
record of field name / primitive value pairs (JavaScript objects preserve
insertion order, and `JSON.stringify` serializes fields in that order). -/
abbrev Filters := List (String × JPrim)

/-- Hexadecimal digit characters used by the `\uXXXX` escapes of
`JSON.stringify`. -/
def hexDigit (n : Nat) : Char :=
  if n < 10 then Char.ofNat (48 + n) else Char.ofNat (87 + n)

/-- The escape `JSON.stringify` applies to one character inside a string. -/
def escChar (c : Char) : List Char :=
  if c = Char.ofNat 34 then [Char.ofNat 92, Char.ofNat 34]
  else if c = Char.ofNat 92 then [Char.ofNat 92, Char.ofNat 92]
  else if c = Char.ofNat 8 then [Char.ofNat 92, 'b']
  else if c = Char.ofNat 9 then [Char.ofNat 92, 't']
  else if c = Char.ofNat 10 then [Char.ofNat 92, 'n']
  else if c = Char.ofNat 12 then [Char.ofNat 92, 'f']
  else if c = Char.ofNat 13 then [Char.ofNat 92, 'r']
  else if c.toNat < 32 then
    [Char.ofNat 92, 'u', '0', '0', hexDigit (c.toNat / 16), hexDigit (c.toNat % 16)]
  else [c]

/-- A JSON string literal: quote, escaped characters, quote. -/
def quoteChars (s : String) : List Char :=
  Char.ofNat 34 :: (s.data.flatMap escChar) ++ [Char.ofNat 34]

/-- Decimal digit character. -/
def digitChar (n : Nat) : Char := Char.ofNat (48 + n)

/-- Decimal rendering of a natural number, fuel-driven so that it is
structural recursion (the fuel `n + 1` always suffices). -/
def natCharsAux : Nat → Nat → List Char → List Char
  | 0, _, acc => acc
  | fuel + 1, n, acc =>
      if n = 0 then acc else natCharsAux fuel (n / 10) (digitChar (n % 10) :: acc)

/-- Decimal rendering of a natural number. -/
def natChars (n : Nat) : List Char :=
  if n = 0 then ['0'] else natCharsAux (n + 1) n []

/-- Decimal rendering of an integer, as `JSON.stringify` prints integral
JavaScript numbers. -/
def intChars (i : Int) : List Char :=
  if i < 0 then '-' :: natChars i.natAbs else natChars i.natAbs

/-- `JSON.stringify` of a primitive value. -/
def stringifyPrim : JPrim → List Char
  | .num n => intChars n
  | .str s => quoteChars s
  | .bool true => "true".data
  | .bool false => "false".data
  | .jnull => "null".data

/-- `JSON.stringify` of one object field: `"name":value`. -/
def stringifyField (p : String × JPrim) : List Char :=
  quoteChars p.1 ++ ':' :: stringifyPrim p.2

/-- Comma-separated concatenation. -/
def joinComma : List (List Char) → List Char
  | [] => []
  | [x] => x
  | x :: y :: xs => x ++ ',' :: joinComma (y :: xs)

/-- `JSON.stringify` of a flat filter record, serializing the fields in the
record's own order (JavaScript object insertion order). -/
def stringifyFilters (fs : Filters) : List Char :=
  Char.ofNat 123 :: joinComma (fs.map stringifyField) ++ [Char.ofNat 125]

/-- UTF-8 encoding of one character (`Buffer.from(str)` uses UTF-8). -/
def utf8Char (c : Char) : List Nat :=
  let n := c.toNat
  if n < 128 then [n]
  else if n < 2048 then [192 + n / 64, 128 + n % 64]
  else if n < 65536 then [224 + n / 4096, 128 + (n / 64) % 64, 128 + n % 64]
  else [240 + n / 262144, 128 + (n / 4096) % 64, 128 + (n / 64) % 64, 128 + n % 64]

/-- UTF-8 encoding of a character list. -/
def utf8Encode (cs : List Char) : List Nat := cs.flatMap utf8Char

/-- The base64 alphabet. -/
def b64Alphabet : List Char :=
  "ABCDEFGHIJKLMNOPQRSTUVWXYZabcdefghijklmnopqrstuvwxyz0123456789+/".data

/-- One base64 digit. -/
def b64Char (n : Nat) : Char := b64Alphabet.getD n 'A'

/-- Standard base64 with padding, as `Buffer.prototype.toString('base64')`
produces it. -/
def base64Encode : List Nat → List Char
  | [] => []
  | [b1] => [b64Char (b1 / 4), b64Char (b1 % 4 * 16), '=', '=']
  | [b1, b2] => [b64Char (b1 / 4), b64Char (b1 % 4 * 16 + b2 / 16), b64Char (b2 % 16 * 4), '=']
  | b1 :: b2 :: b3 :: rest =>
      b64Char (b1 / 4) :: b64Char (b1 % 4 * 16 + b2 / 16) ::
        b64Char (b2 % 16 * 4 + b3 / 64) :: b64Char (b3 % 64) :: base64Encode rest

/-- The filter encoding used by the list caches:
`Buffer.from(JSON.stringify(filters)).toString('base64')`. -/
def encodeFilters (filters : Filters) : List Char :=
  base64Encode (utf8Encode (stringifyFilters filters))

/-- Key of the single-user cache: `user:<userId>`. -/
def keyUser (userId : String) : List Char := "user:".data ++ userId.data

/-- Key of the single-itinerary cache: `itinerary:<itineraryId>`. -/
def keyItinerary (itineraryId : String) : List Char := "itinerary:".data ++ itineraryId.data

/-- The scope prefix of a user's list-cache keys: `itineraries:<userId>:`.
The pattern `itineraries:<userId>:*` matches exactly the keys having this
prefix. -/
def listKeyPre (userId : String) : List Char := "itineraries:".data ++ userId.data ++ [':']

/-- Key of a user's list cache: `itineraries:<userId>:<encodedFilters>`. -/
def keyItineraryList (userId : String) (filters : Filters) : List Char :=
  listKeyPre userId ++ encodeFilters filters

/-- The prefix of the public list-cache keys, matched by the pattern
`public_itineraries:*`. -/
def publicPre : List Char := "public_itineraries:".data

/-- Key of a public list cache: `public_itineraries:<encodedFilters>`. -/
def keyPublicList (filters : Filters) : List Char := publicPre ++ encodeFilters filters

/-- A string stored in Redis, modelled at the JSON level: `jsonOf v` is the
`JSON.stringify` output of the JSON-representable value `v` (never the empty
string, hence truthy, and `JSON.parse` recovers exactly `v`); `raw s` is any
other payload (e.g. a corrupt entry), on which `JSON.parse` throws. -/
inductive JsStr where
  | jsonOf (v : Json) : JsStr
  | raw (s : String) : JsStr

/-- JavaScript truthiness of a stored string (`data ? ... : null`): falsy
exactly when the string is empty; `JSON.stringify` output is never empty. -/
def jsTruthy : JsStr → Bool
  | .jsonOf _ => true
  | .raw s => !s.isEmpty

/-- `JSON.parse` on a stored string: recovers the value from stringify
output, throws on anything else. -/
def jsonParse : JsStr → Except Unit Json
  | .jsonOf v => .ok v
  | .raw _ => .error ()

/-- One cache entry: key, serialized payload, TTL in seconds. -/
structure Entry where
  key : List Char
  val : JsStr
  ttl : Nat

/-- The state of the Redis client as the module sees it: `connected` is
whether `redisClient` is non-null (`connectRedis` succeeded), `failing`
models the underlying client throwing a transport error on every command,
and `store` is the contents of the key/value store. -/
structure RedisState where
  connected : Bool
  failing : Bool
  store : List Entry

/-- Value stored under a key, if any (first matching entry). -/
def lookupVal (st : RedisState) (k : List Char) : Option JsStr :=
  (st.store.find? (fun e => decide (e.key = k))).map (fun e => e.val)

/-- `redisClient.get(key)`: throws on transport failure, else returns the
stored string or null. -/
def rawGet (st : RedisState) (k : List Char) : Except Unit (Option JsStr) :=
  if st.failing then .error () else .ok (lookupVal st k)

/-- `redisClient.setEx(key, ttl, data)`: throws on transport failure, else
overwrites the key with the given payload and TTL. -/
def rawSetEx (st : RedisState) (k : List Char) (ttl : Nat) (v : JsStr) :
    Except Unit RedisState :=
  if st.failing then .error ()
  else .ok { st with store := ⟨k, v, ttl⟩ :: st.store.filter (fun e => decide (e.key ≠ k)) }

/-- `redisClient.del(key)` for a single key. -/
def rawDel (st : RedisState) (k : List Char) : Except Unit RedisState :=
  if st.failing then .error ()
  else .ok { st with store := st.store.filter (fun e => decide (e.key ≠ k)) }

/-- `redisClient.keys(pattern)` for a pattern `stem*` with glob-free stem:
returns the keys of all entries whose key starts with the stem. -/
def rawKeys (st : RedisState) (stem : List Char) : Except Unit (List (List Char)) :=
  if st.failing then .error ()
  else .ok ((st.store.filter (fun e => decide (stem <+: e.key))).map (fun e => e.key))

/-- `redisClient.del(keys)` for a batch of keys. -/
def rawDelMulti (st : RedisState) (ks : List (List Char)) : Except Unit RedisState :=
  if st.failing then .error ()
  else .ok { st with store := st.store.filter (fun e => decide (e.key ∉ ks)) }

/-- `cacheUser(userId, userData)`: no-op without a client; stores the
serialized user under `user:<userId>` for 3600 s; errors are caught. -/
def cacheUser (st : RedisState) (userId : String) (userData : Json) : RedisState :=
  if !st.connected then st
  else
    match rawSetEx st (keyUser userId) 3600 (.jsonOf userData) with
    | .ok st2 => st2
    | .error _ => st

/-- `getCachedUser(userId)`: null without a client; returns the parsed
payload under `user:<userId>`, null on miss, falsy data or any error. -/
def getCachedUser (st : RedisState) (userId : String) : Json × RedisState :=
  if !st.connected then (Json.null, st)
  else
    match rawGet st (keyUser userId) with
    | .error _ => (Json.null, st)
    | .ok none => (Json.null, st)
    | .ok (some s) =>
      if jsTruthy s then
        match jsonParse s with
        | .ok v => (v, st)
        | .error _ => (Json.null, st)
      else (Json.null, st)

/-- `invalidateUserCache(userId)`: deletes `user:<userId>`. -/
def invalidateUserCache (st : RedisState) (userId : String) : RedisState :=
  if !st.connected then st
  else
    match rawDel st (keyUser userId) with
    | .ok st2 => st2
    | .error _ => st

/-- `cacheItinerary(itineraryId, itineraryData)`: stores under
`itinerary:<itineraryId>` for 1800 s. -/
def cacheItinerary (st : RedisState) (itineraryId : String) (itineraryData : Json) :
    RedisState :=
  if !st.connected then st
  else
    match rawSetEx st (keyItinerary itineraryId) 1800 (.jsonOf itineraryData) with
    | .ok st2 => st2
    | .error _ => st

/-- `getCachedItinerary(itineraryId)`: read of `itinerary:<itineraryId>`. -/
def getCachedItinerary (st : RedisState) (itineraryId : String) : Json × RedisState :=
  if !st.connected then (Json.null, st)
  else
    match rawGet st (keyItinerary itineraryId) with
    | .error _ => (Json.null, st)
    | .ok none => (Json.null, st)
    | .ok (some s) =>
      if jsTruthy s then
        match jsonParse s with
        | .ok v => (v, st)
        | .error _ => (Json.null, st)
      else (Json.null, st)

/-- `invalidateItineraryCache(itineraryId)`: deletes `itinerary:<id>`. -/
def invalidateItineraryCache (st : RedisState) (itineraryId : String) : RedisState :=
  if !st.connected then st
  else
    match rawDel st (keyItinerary itineraryId) with
    | .ok st2 => st2
    | .error _ => st

/-- `cacheItineraryList(userId, filters, data)`: stores the list envelope
under `itineraries:<userId>:<base64(JSON.stringify(filters))>` for 600 s. -/
def cacheItineraryList (st : RedisState) (userId : String) (filters : Filters)
    (data : Json) : RedisState :=
  if !st.connected then st
  else
    match rawSetEx st (keyItineraryList userId filters) 600 (.jsonOf data) with
    | .ok st2 => st2
    | .error _ => st

/-- `getCachedItineraryList(userId, filters)`: read of the same key. -/
def getCachedItineraryList (st : RedisState) (userId : String) (filters : Filters) :
    Json × RedisState :=
  if !st.connected then (Json.null, st)
  else
    match rawGet st (keyItineraryList userId filters) with
    | .error _ => (Json.null, st)
    | .ok none => (Json.null, st)
    | .ok (some s) =>
      if jsTruthy s then
        match jsonParse s with
        | .ok v => (v, st)
        | .error _ => (Json.null, st)
      else (Json.null, st)

/-- `invalidateUserItineraryCaches(userId)`: enumerates the keys matching
`itineraries:<userId>:*` and deletes them as a batch when non-empty. -/
def invalidateUserItineraryCaches (st : RedisState) (userId : String) : RedisState :=
  if !st.connected then st
  else
    match rawKeys st (listKeyPre userId) with
    | .error _ => st
    | .ok ks =>
      if 0 < ks.length then
        match rawDelMulti st ks with
        | .ok st2 => st2
        | .error _ => st
      else st

/-- `cachePublicItineraries(filters, data)`: stores under
`public_itineraries:<base64(JSON.stringify(filters))>` for 300 s. -/
def cachePublicItineraries (st : RedisState) (filters : Filters) (data : Json) :
    RedisState :=
  if !st.connected then st
  else
    match rawSetEx st (keyPublicList filters) 300 (.jsonOf data) with
    | .ok st2 => st2
    | .error _ => st

/-- `getCachedPublicItineraries(filters)`: read of the same key. -/
def getCachedPublicItineraries (st : RedisState) (filters : Filters) :
    Json × RedisState :=
  if !st.connected then (Json.null, st)
  else
    match rawGet st (keyPublicList filters) with
    | .error _ => (Json.null, st)
    | .ok none => (Json.null, st)
    | .ok (some s) =>
      if jsTruthy s then
        match jsonParse s with
        | .ok v => (v, st)
        | .error _ => (Json.null, st)
      else (Json.null, st)

/-- `invalidatePublicItineraryCaches()`: enumerates `public_itineraries:*`
and deletes the matches as a batch when non-empty. -/
def invalidatePublicItineraryCaches (st : RedisState) : RedisState :=
  if !st.connected then st
  else
    match rawKeys st publicPre with
    | .error _ => st
    | .ok ks =>
      if 0 < ks.length then
        match rawDelMulti st ks with
        | .ok st2 => st2
        | .error _ => st
      else st

/-- Generic `cache(key, data, ttl)` (the source defaults `ttl` to 3600;
modelled with the TTL always passed explicitly). -/
def cache (st : RedisState) (k : String) (data : Json) (ttl : Nat) : RedisState :=
  if !st.connected then st
  else
    match rawSetEx st k.data ttl (.jsonOf data) with
    | .ok st2 => st2
    | .error _ => st

/-- Generic `getCache(key)`. -/
def getCache (st : RedisState) (k : String) : Json × RedisState :=
  if !st.connected then (Json.null, st)
  else
    match rawGet st k.data with
    | .error _ => (Json.null, st)
    | .ok none => (Json.null, st)
    | .ok (some s) =>
      if jsTruthy s then
        match jsonParse s with
        | .ok v => (v, st)
        | .error _ => (Json.null, st)
      else (Json.null, st)

/-- Generic `deleteCache(key)`. -/
def deleteCache (st : RedisState) (k : String) : RedisState :=
  if !st.connected then st
  else
    match rawDel st k.data with
    | .ok st2 => st2
    | .error _ => st

/-! ### Basic lemmas about the cache operations -/

lemma cacheUser_eq {st : RedisState} {u : String} {v : Json}
    (hc : st.connected = true) (hf : st.failing = false) :
    cacheUser st u v =
      { st with store := ⟨keyUser u, .jsonOf v, 3600⟩ ::
          st.store.filter (fun e => decide (e.key ≠ keyUser u)) } := by
  simp [cacheUser, rawSetEx, hc, hf]

lemma cacheItinerary_eq {st : RedisState} {i : String} {v : Json}
    (hc : st.connected = true) (hf : st.failing = false) :
    cacheItinerary st i v =
      { st with store := ⟨keyItinerary i, .jsonOf v, 1800⟩ ::
          st.store.filter (fun e => decide (e.key ≠ keyItinerary i)) } := by
  simp [cacheItinerary, rawSetEx, hc, hf]

lemma cacheItineraryList_eq {st : RedisState} {u : String} {f : Filters} {v : Json}
    (hc : st.connected = true) (hf : st.failing = false) :
    cacheItineraryList st u f v =
      { st with store := ⟨keyItineraryList u f, .jsonOf v, 600⟩ ::
          st.store.filter (fun e => decide (e.key ≠ keyItineraryList u f)) } := by
  simp [cacheItineraryList, rawSetEx, hc, hf]

lemma cachePublicItineraries_eq {st : RedisState} {f : Filters} {v : Json}
    (hc : st.connected = true) (hf : st.failing = false) :
    cachePublicItineraries st f v =
      { st with store := ⟨keyPublicList f, .jsonOf v, 300⟩ ::
          st.store.filter (fun e => decide (e.key ≠ keyPublicList f)) } := by
  simp [cachePublicItineraries, rawSetEx, hc, hf]

lemma cache_eq {st : RedisState} {k : String} {v : Json} {ttl : Nat}
    (hc : st.connected = true) (hf : st.failing = false) :
    cache st k v ttl =
      { st with store := ⟨k.data, .jsonOf v, ttl⟩ ::
          st.store.filter (fun e => decide (e.key ≠ k.data)) } := by
  simp [cache, rawSetEx, hc, hf]

lemma getCachedUser_state (st : RedisState) (u : String) :
    (getCachedUser st u).2 = st := by
  unfold getCachedUser
  repeat' split
  all_goals rfl

lemma getCachedItinerary_state (st : RedisState) (i : String) :
    (getCachedItinerary st i).2 = st := by
  unfold getCachedItinerary
  repeat' split
  all_goals rfl

lemma getCachedItineraryList_state (st : RedisState) (u : String) (f : Filters) :
    (getCachedItineraryList st u f).2 = st := by
  unfold getCachedItineraryList
  repeat' split
  all_goals rfl

lemma getCachedPublicItineraries_state (st : RedisState) (f : Filters) :
    (getCachedPublicItineraries st f).2 = st := by
  unfold getCachedPublicItineraries
  repeat' split
  all_goals rfl

lemma getCache_state (st : RedisState) (k : String) :
    (getCache st k).2 = st := by
  unfold getCache
  repeat' split
  all_goals rfl

lemma lookupVal_set_self {st : RedisState} {k : List Char} {v : JsStr} {ttl : Nat}
    {rest : List Entry} :
    lookupVal { st with store := ⟨k, v, ttl⟩ :: rest } k = some v := by
  simp [lookupVal, List.find?_cons_of_pos]

lemma getCachedUser_hit {st : RedisState} {u : String} {v : Json}
    (hc : st.connected = true) (hf : st.failing = false)
    (hl : lookupVal st (keyUser u) = some (.jsonOf v)) :
    getCachedUser st u = (v, st) := by
  simp [getCachedUser, rawGet, hc, hf, hl, jsTruthy, jsonParse]

lemma getCachedItinerary_hit {st : RedisState} {i : String} {v : Json}
    (hc : st.connected = true) (hf : st.failing = false)
    (hl : lookupVal st (keyItinerary i) = some (.jsonOf v)) :
    getCachedItinerary st i = (v, st) := by
  simp [getCachedItinerary, rawGet, hc, hf, hl, jsTruthy, jsonParse]

lemma getCachedItineraryList_hit {st : RedisState} {u : String} {f : Filters} {v : Json}
    (hc : st.connected = true) (hf : st.failing = false)
    (hl : lookupVal st (keyItineraryList u f) = some (.jsonOf v)) :
    getCachedItineraryList st u f = (v, st) := by
  simp [getCachedItineraryList, rawGet, hc, hf, hl, jsTruthy, jsonParse]

lemma getCachedPublicItineraries_hit {st : RedisState} {f : Filters} {v : Json}
    (hc : st.connected = true) (hf : st.failing = false)
    (hl : lookupVal st (keyPublicList f) = some (.jsonOf v)) :
    getCachedPublicItineraries st f = (v, st) := by
  simp [getCachedPublicItineraries, rawGet, hc, hf, hl, jsTruthy, jsonParse]

lemma getCache_hit {st : RedisState} {k : String} {v : Json}
    (hc : st.connected = true) (hf : st.failing = false)
    (hl : lookupVal st k.data = some (.jsonOf v)) :
    getCache st k = (v, st) := by
  simp [getCache, rawGet, hc, hf, hl, jsTruthy, jsonParse]

lemma getCachedUser_miss {st : RedisState} {u : String}
    (hc : st.connected = true) (hl : lookupVal st (keyUser u) = none) :
    getCachedUser st u = (Json.null, st) := by
  by_cases hf : st.failing <;> simp [getCachedUser, rawGet, hc, hf, hl]

lemma getCachedItinerary_miss {st : RedisState} {i : String}
    (hc : st.connected = true) (hl : lookupVal st (keyItinerary i) = none) :
    getCachedItinerary st i = (Json.null, st) := by
  by_cases hf : st.failing <;> simp [getCachedItinerary, rawGet, hc, hf, hl]

/-! ### Concrete fixtures used by the closed theorems -/

/-- The filter record of the spec example, `\x7bpage:1, limit:10, sort:"-createdAt"\x7d`,
in its written field order. -/
def fA : Filters := [("page", .num 1), ("limit", .num 10), ("sort", .str "-createdAt")]

/-- The same field-value pairs in the other field order of the spec example,
`\x7bsort:"-createdAt", limit:10, page:1\x7d`. -/
def fB : Filters := [("sort", .str "-createdAt"), ("limit", .num 10), ("page", .num 1)]

/-- A connected client over an empty store. -/
def stEmpty : RedisState := ⟨true, false, []⟩

/-- A disconnected client (`redisClient` is null). -/
def stOffline : RedisState := ⟨false, false, []⟩

/-- A connected client whose every command throws a transport error, with one
entry already in the store. -/
def stFailing : RedisState := ⟨true, true, [⟨keyUser "7", .jsonOf (Json.num 3), 3600⟩]⟩

/-- A connected client whose store holds a corrupt (unparseable) payload under
`user:7`. -/
def stCorrupt : RedisState := ⟨true, false, [⟨keyUser "7", .raw "oops", 42⟩]⟩

/-! ### Claims -/

/-- Claim C1, counterexample: the list-cache key is
`base64(JSON.stringify(filters))` under the scope prefix, and `JSON.stringify`
serializes fields in record order without sorting, so the spec's two example
records with the same field-value pairs in different field orders yield
different keys, and a get keyed by the reordered record misses the entry the
set stored. -/
theorem c1_counterexample :
    keyItineraryList "u1" fA ≠ keyItineraryList "u1" fB ∧
    keyPublicList fA ≠ keyPublicList fB ∧
    (getCachedItineraryList (cacheItineraryList stEmpty "u1" fA (Json.str "env"))
      "u1" fB).1 = Json.null := by
  exact ⟨by decide, by decide, rfl⟩

/-- Claim C1 (amended): the filter-encoding function is pure and
deterministic — for a given user the same filter record (same fields in the
same order) always encodes to the same key, so a get with the identical
record immediately after a set returns the stored envelope, for the
user-scoped and the public list caches alike; but the encoding is not
order-independent in the field order of the record. -/
theorem c1_encoding_deterministic (st : RedisState) (u : String) (f : Filters) (d : Json)
    (hc : st.connected = true) (hf : st.failing = false) :
    (getCachedItineraryList (cacheItineraryList st u f d) u f).1 = d ∧
    (getCachedPublicItineraries (cachePublicItineraries st f d) f).1 = d := by
  constructor
  · rw [cacheItineraryList_eq hc hf]
    rw [getCachedItineraryList_hit (by simp [hc]) (by simp [hf]) lookupVal_set_self]
  · rw [cachePublicItineraries_eq hc hf]
    rw [getCachedPublicItineraries_hit (by simp [hc]) (by simp [hf]) lookupVal_set_self]

/-- Claim C1, witness for the amended theorem at a concrete input. -/
theorem c1_encoding_deterministic_check :
    stEmpty.connected = true ∧
    (getCachedItineraryList (cacheItineraryList stEmpty "u1" fA (Json.str "env"))
      "u1" fA).1 = Json.str "env" :=
  ⟨rfl, (c1_encoding_deterministic stEmpty "u1" fA (Json.str "env") rfl rfl).1⟩

/-- Claim C5: with the key/value client absent (`redisClient` null), every
exported cache operation is a no-op: every get returns null with the state
untouched, and every set/delete returns the state unchanged without any
store call. -/
theorem c5_offline_noop (st : RedisState) (u i k : String) (f : Filters)
    (v d : Json) (ttl : Nat) (h : st.connected = false) :
    getCachedUser st u = (Json.null, st) ∧
    getCachedItinerary st i = (Json.null, st) ∧
    getCachedItineraryList st u f = (Json.null, st) ∧
    getCachedPublicItineraries st f = (Json.null, st) ∧
    getCache st k = (Json.null, st) ∧
    cacheUser st u v = st ∧
    cacheItinerary st i v = st ∧
    cacheItineraryList st u f d = st ∧
    cachePublicItineraries st f d = st ∧
    cache st k d ttl = st ∧
    invalidateUserCache st u = st ∧
    invalidateItineraryCache st i = st ∧
    invalidateUserItineraryCaches st u = st ∧
    invalidatePublicItineraryCaches st = st ∧
    deleteCache st k = st := by
  simp [getCachedUser, getCachedItinerary, getCachedItineraryList,
    getCachedPublicItineraries, getCache, cacheUser, cacheItinerary,
    cacheItineraryList, cachePublicItineraries, cache, invalidateUserCache,
    invalidateItineraryCache, invalidateUserItineraryCaches,
    invalidatePublicItineraryCaches, deleteCache, h]

/-- Claim C5, witness at a concrete disconnected state. -/
theorem c5_offline_noop_check :
    stOffline.connected = false ∧
    getCachedUser stOffline "7" = (Json.null, stOffline) ∧
    cacheUser stOffline "7" (Json.num 1) = stOffline :=
  ⟨rfl,
    (c5_offline_noop stOffline "7" "7" "k" [] (Json.num 1) (Json.num 1) 60 rfl).1,
    (c5_offline_noop stOffline "7" "7" "k" [] (Json.num 1) (Json.num 1) 60 rfl).2.2.2.2.2.1⟩

/-- Claim C6: errors never propagate out of a cache operation.  If the client
throws a transport error on every command, every get returns null with the
state untouched and every set/delete returns the state unchanged; and a
malformed cached payload (one `JSON.parse` rejects) is returned as null,
indistinguishable from a miss. -/
theorem c6_fail_soft (st st2 : RedisState) (u u2 i k : String) (f : Filters)
    (v d : Json) (ttl : Nat) (s : String) :
    (st.failing = true →
      getCachedUser st u = (Json.null, st) ∧
      getCachedItinerary st i = (Json.null, st) ∧
      getCachedItineraryList st u f = (Json.null, st) ∧
      getCachedPublicItineraries st f = (Json.null, st) ∧
      getCache st k = (Json.null, st) ∧
      cacheUser st u v = st ∧
      cacheItinerary st i v = st ∧
      cacheItineraryList st u f d = st ∧
      cachePublicItineraries st f d = st ∧
      cache st k d ttl = st ∧
      invalidateUserCache st u = st ∧
      invalidateItineraryCache st i = st ∧
      invalidateUserItineraryCaches st u = st ∧
      invalidatePublicItineraryCaches st = st ∧
      deleteCache st k = st) ∧
    (st2.connected = true → lookupVal st2 (keyUser u2) = some (.raw s) →
      getCachedUser st2 u2 = (Json.null, st2)) := by
  constructor
  · intro h
    by_cases hc : st.connected <;>
      simp [getCachedUser, getCachedItinerary, getCachedItineraryList,
        getCachedPublicItineraries, getCache, cacheUser, cacheItinerary,
        cacheItineraryList, cachePublicItineraries, cache, invalidateUserCache,
        invalidateItineraryCache, invalidateUserItineraryCaches,
        invalidatePublicItineraryCaches, deleteCache, rawGet, rawSetEx, rawDel,
        rawKeys, hc, h]
  · intro hc2 hl
    by_cases hf : st2.failing
    · simp [getCachedUser, rawGet, hc2, hf]
    · by_cases hs : s.isEmpty <;>
        simp [getCachedUser, rawGet, jsTruthy, jsonParse, hc2, hf, hl, hs]

/-- Claim C6, witness: a failing client and a corrupt payload, both read back
as null with the state untouched, and a set on the failing client is a
no-op. -/
theorem c6_fail_soft_check :
    getCachedUser stFailing "7" = (Json.null, stFailing) ∧
    cacheUser stFailing "7" (Json.num 1) = stFailing ∧
    getCachedUser stCorrupt "7" = (Json.null, stCorrupt) :=
  ⟨((c6_fail_soft stFailing stCorrupt "7" "7" "7" "k" [] (Json.num 1) (Json.num 1)
      60 "oops").1 rfl).1,
    ((c6_fail_soft stFailing stCorrupt "7" "7" "7" "k" [] (Json.num 1) (Json.num 1)
      60 "oops").1 rfl).2.2.2.2.2.1,
    (c6_fail_soft stFailing stCorrupt "7" "7" "7" "k" [] (Json.num 1) (Json.num 1)
      60 "oops").2 rfl rfl⟩

/-- Claim C8: a get on a never-cached id returns absent, and immediately
after `cacheUser`/`cacheItinerary` the corresponding get on the same id
returns the stored value unmodified (serialize-then-deserialize round-trip
identity for JSON-representable values). -/
theorem c8_miss_then_populate (st : RedisState) (u i : String) (v w : Json)
    (hc : st.connected = true) (hf : st.failing = false) :
    (lookupVal st (keyUser u) = none → getCachedUser st u = (Json.null, st)) ∧
    (getCachedUser (cacheUser st u v) u).1 = v ∧
    (lookupVal st (keyItinerary i) = none → getCachedItinerary st i = (Json.null, st)) ∧
    (getCachedItinerary (cacheItinerary st i w) i).1 = w := by
  refine ⟨fun hl => getCachedUser_miss hc hl, ?_,
    fun hl => getCachedItinerary_miss hc hl, ?_⟩
  · rw [cacheUser_eq hc hf]
    rw [getCachedUser_hit (by simp [hc]) (by simp [hf]) lookupVal_set_self]
  · rw [cacheItinerary_eq hc hf]
    rw [getCachedItinerary_hit (by simp [hc]) (by simp [hf]) lookupVal_set_self]

/-- Claim C8, witness at a concrete value: miss on the empty store, then hit
with the cached value after populating. -/
theorem c8_miss_then_populate_check :
    getCachedUser stEmpty "7" = (Json.null, stEmpty) ∧
    (getCachedUser (cacheUser stEmpty "7" (Json.obj [("a", Json.num 5)])) "7").1 =
      Json.obj [("a", Json.num 5)] :=
  ⟨(c8_miss_then_populate stEmpty "7" "9" (Json.num 0) (Json.num 0) rfl rfl).1 rfl,
    (c8_miss_then_populate stEmpty "7" "9" (Json.obj [("a", Json.num 5)])
      (Json.num 0) rfl rfl).2.1⟩

/-- Claim C9: each populating operation stores under the namespace key shape
with the fixed TTL of the policy table (`user:<id>` 3600 s,
`itinerary:<id>` 1800 s, `itineraries:<userId>:<enc>` 600 s,
`public_itineraries:<enc>` 300 s), and the read operations leave the store —
hence every stored TTL — unchanged. -/
theorem c9_ttl_policy (st : RedisState) (u i : String) (f : Filters) (v d e : Json)
    (hc : st.connected = true) (hf : st.failing = false) :
    (⟨keyUser u, .jsonOf v, 3600⟩ : Entry) ∈ (cacheUser st u v).store ∧
    (⟨keyItinerary i, .jsonOf d, 1800⟩ : Entry) ∈ (cacheItinerary st i d).store ∧
    (⟨keyItineraryList u f, .jsonOf e, 600⟩ : Entry) ∈ (cacheItineraryList st u f e).store ∧
    (⟨keyPublicList f, .jsonOf e, 300⟩ : Entry) ∈ (cachePublicItineraries st f e).store ∧
    (getCachedUser st u).2 = st ∧
    (getCachedItinerary st i).2 = st ∧
    (getCachedItineraryList st u f).2 = st ∧
    (getCachedPublicItineraries st f).2 = st := by
  refine ⟨?_, ?_, ?_, ?_, getCachedUser_state st u, getCachedItinerary_state st i,
    getCachedItineraryList_state st u f, getCachedPublicItineraries_state st f⟩
  · rw [cacheUser_eq hc hf]; exact List.mem_cons_self _ _
  · rw [cacheItinerary_eq hc hf]; exact List.mem_cons_self _ _
  · rw [cacheItineraryList_eq hc hf]; exact List.mem_cons_self _ _
  · rw [cachePublicItineraries_eq hc hf]; exact List.mem_cons_self _ _

/-- Claim C9, witness at a concrete state. -/
theorem c9_ttl_policy_check :
    (⟨keyUser "7", .jsonOf (Json.num 1), 3600⟩ : Entry) ∈
      (cacheUser stEmpty "7" (Json.num 1)).store ∧
    (getCachedUser stCorrupt "7").2 = stCorrupt :=
  ⟨(c9_ttl_policy stEmpty "7" "9" [] (Json.num 1) (Json.num 1) (Json.num 1)
      rfl rfl).1,
    (c9_ttl_policy stCorrupt "7" "9" [] (Json.num 1) (Json.num 1) (Json.num 1)
      rfl rfl).2.2.2.2.1⟩

/-- Claim C10: caching the JSON value null stores the string `null`, which is
truthy, parses back to null, and is therefore returned exactly as a miss is —
at the public interface a cached null is indistinguishable from an absent
key. -/
theorem c10_cached_null_is_miss (st st2 : RedisState) (u u2 k : String) (ttl : Nat)
    (hc : st.connected = true) (hf : st.failing = false) :
    (getCachedUser (cacheUser st u Json.null) u).1 = Json.null ∧
    (getCache (cache st k Json.null ttl) k).1 = Json.null ∧
    (st2.connected = true → lookupVal st2 (keyUser u2) = none →
      getCachedUser st2 u2 = (Json.null, st2)) := by
  refine ⟨?_, ?_, fun hc2 hl => getCachedUser_miss hc2 hl⟩
  · rw [cacheUser_eq hc hf]
    rw [getCachedUser_hit (by simp [hc]) (by simp [hf]) lookupVal_set_self]
  · rw [cache_eq hc hf]
    rw [getCache_hit (by simp [hc]) (by simp [hf]) lookupVal_set_self]

/-- Claim C10, witness: reading back a cached null equals reading an absent
key. -/
theorem c10_cached_null_is_miss_check :
    (getCachedUser (cacheUser stEmpty "7" Json.null) "7").1 = Json.null ∧
    getCachedUser stEmpty "7" = (Json.null, stEmpty) :=
  ⟨(c10_cached_null_is_miss stEmpty stEmpty "7" "7" "k" 60 rfl rfl).1,
    (c10_cached_null_is_miss stEmpty stEmpty "7" "7" "k" 60 rfl rfl).2.2 rfl rfl⟩

/-! ### Pattern deletion: characterization of scope invalidation -/

lemma invalidateItineraryCache_eq {st : RedisState} {i : String}
    (hc : st.connected = true) (hf : st.failing = false) :
    invalidateItineraryCache st i =
      { st with store := st.store.filter (fun e => decide (e.key ≠ keyItinerary i)) } := by
  simp [invalidateItineraryCache, rawDel, hc, hf]

lemma mem_invUserLists_iff {st : RedisState} {u : String}
    (hc : st.connected = true) (hf : st.failing = false) (e : Entry) :
    e ∈ (invalidateUserItineraryCaches st u).store ↔
      e ∈ st.store ∧ ¬ (listKeyPre u <+: e.key) := by
  by_cases hlen : 0 < ((st.store.filter
      (fun e => decide (listKeyPre u <+: e.key))).map (fun e => e.key)).length
  · simp only [invalidateUserItineraryCaches, rawKeys, rawDelMulti, hc, hf,
      Bool.not_true, if_false, if_true, hlen, if_pos, Bool.false_eq_true]
    simp only [List.mem_filter, decide_eq_true_eq]
    constructor
    · rintro ⟨hs, hd⟩
      refine ⟨hs, fun hp => hd ?_⟩
      simp only [List.mem_map, List.mem_filter, decide_eq_true_eq]
      exact ⟨e, ⟨hs, hp⟩, rfl⟩
    · rintro ⟨hs, hp⟩
      refine ⟨hs, fun hk => ?_⟩
      simp only [List.mem_map, List.mem_filter, decide_eq_true_eq] at hk
      obtain ⟨a, ⟨_, hpa⟩, hak⟩ := hk
      exact hp (hak ▸ hpa)
  · simp only [invalidateUserItineraryCaches, rawKeys, rawDelMulti, hc, hf,
      Bool.not_true, Bool.false_eq_true, if_false]
    rw [if_neg hlen]
    constructor
    · intro hs
      refine ⟨hs, fun hp => hlen ?_⟩
      rw [List.length_pos]
      intro hnil
      have : e.key ∈ ((st.store.filter
          (fun e => decide (listKeyPre u <+: e.key))).map (fun e => e.key)) := by
        simp only [List.mem_map, List.mem_filter, decide_eq_true_eq]
        exact ⟨e, ⟨hs, hp⟩, rfl⟩
      rw [hnil] at this
      exact List.not_mem_nil _ this
    · exact fun h => h.1

/-- Two colon-free words followed by a colon separator: if one such prefix is
a list-prefix of the other's extension, the words coincide. -/
lemma eq_of_colon_sep (a : List Char) : ∀ (b s t : List Char), ':' ∉ a → ':' ∉ b →
    (a ++ ':' :: s) <+: (b ++ ':' :: t) → a = b := by
  induction a with
  | nil =>
    intro b s t _ hb h
    cases b with
    | nil => rfl
    | cons c b2 =>
      exfalso
      rw [List.nil_append, List.cons_append, List.cons_prefix_cons] at h
      obtain ⟨h1, _⟩ := h
      exact hb (h1 ▸ List.mem_cons_self _ _)
  | cons c a2 ih =>
    intro b s t ha hb h
    cases b with
    | nil =>
      exfalso
      rw [List.cons_append, List.nil_append, List.cons_prefix_cons] at h
      obtain ⟨h1, _⟩ := h
      exact ha (h1 ▸ List.mem_cons_self _ _)
    | cons d b2 =>
      rw [List.cons_append, List.cons_append, List.cons_prefix_cons] at h
      obtain ⟨h1, h2⟩ := h
      have h3 := ih b2 s t (fun hm => ha (List.mem_cons_of_mem _ hm))
        (fun hm => hb (List.mem_cons_of_mem _ hm)) h2
      rw [h1, h3]

lemma listKeyPre_not_prefix_of_other {u u2 : String} {suf : List Char}
    (hu : ':' ∉ u.data) (hu2 : ':' ∉ u2.data) (hne : u ≠ u2) :
    ¬ (listKeyPre u <+: listKeyPre u2 ++ suf) := by
  intro hp
  unfold listKeyPre at hp
  rw [List.append_assoc "itineraries:".data u.data [':'],
    List.append_assoc, List.append_assoc,
    List.prefix_append_right_inj] at hp
  have h1 : (u.data ++ ':' :: ([] : List Char)) <+: (u2.data ++ ':' :: suf) := by
    simpa using hp
  have h2 := eq_of_colon_sep u.data u2.data [] suf hu hu2 h1
  refine hne ?_
  cases u
  cases u2
  exact congrArg String.mk (by simpa using h2)

lemma listKeyPre_not_prefix_of_public {u : String} {suf : List Char} :
    ¬ (listKeyPre u <+: publicPre ++ suf) := by
  intro hp
  have he1 : listKeyPre u = 'i' :: ("tineraries:".data ++ u.data ++ [':']) := rfl
  have he2 : publicPre ++ suf = 'p' :: ("ublic_itineraries:".data ++ suf) := rfl
  rw [he1, he2, List.cons_prefix_cons] at hp
  exact absurd hp.1 (by decide)

/-- Claim C4: `invalidateUserItineraryCaches(u)` deletes every key cached
under scope `u` (pattern `itineraries:<u>:*`) whatever filter encoding
produced it, and leaves every entry of any other scope — another user id
(user ids are MongoDB ObjectId hex strings, hence colon-free) or the
`public_itineraries` namespace — in the store unchanged. -/
theorem c4_scope_invalidation (st : RedisState) (u u2 : String) (sufA sufB : List Char)
    (hc : st.connected = true) (hf : st.failing = false)
    (hu : ':' ∉ u.data) (hu2 : ':' ∉ u2.data) (hne : u ≠ u2) :
    (∀ e ∈ (invalidateUserItineraryCaches st u).store, ¬ (listKeyPre u <+: e.key)) ∧
    (∀ e ∈ st.store, e.key = listKeyPre u2 ++ sufA →
      e ∈ (invalidateUserItineraryCaches st u).store) ∧
    (∀ e ∈ st.store, e.key = publicPre ++ sufB →
      e ∈ (invalidateUserItineraryCaches st u).store) := by
  refine ⟨fun e he => ((mem_invUserLists_iff hc hf e).1 he).2, ?_, ?_⟩
  · intro e he hk
    rw [mem_invUserLists_iff hc hf e]
    refine ⟨he, fun hp => ?_⟩
    rw [hk] at hp
    exact listKeyPre_not_prefix_of_other hu hu2 hne hp
  · intro e he hk
    rw [mem_invUserLists_iff hc hf e]
    refine ⟨he, fun hp => ?_⟩
    rw [hk] at hp
    exact listKeyPre_not_prefix_of_public hp

/-- A store with three distinct filter encodings cached for user 42, one for
user 43 and one public entry, built with the module's own populate
operations. -/
def stMulti : RedisState :=
  cacheItineraryList (cacheItineraryList (cacheItineraryList (cacheItineraryList
    (cachePublicItineraries stEmpty fA (Json.str "pub")) "43" fA (Json.str "l43"))
    "42" fA (Json.str "a")) "42" fB (Json.str "b")) "42" [] (Json.str "c")

/-- Claim C4, witness: invalidating scope 42 removes every scope-42 list key
and keeps the scope-43 and public entries. -/
theorem c4_scope_invalidation_check :
    (¬ ∃ e ∈ (invalidateUserItineraryCaches stMulti "42").store,
        listKeyPre "42" <+: e.key) ∧
    (∃ e ∈ (invalidateUserItineraryCaches stMulti "42").store,
        e.key = keyItineraryList "43" fA) ∧
    (∃ e ∈ (invalidateUserItineraryCaches stMulti "42").store,
        e.key = keyPublicList fA) := by
  have h := c4_scope_invalidation stMulti "42" "43" (encodeFilters fA)
    (encodeFilters fA) rfl rfl (by decide) (by decide) (by decide)
  refine ⟨?_, ?_, ?_⟩
  · rintro ⟨e, he, hp⟩
    exact h.1 e he hp
  · obtain ⟨e, he, hk⟩ :=
      (by decide : ∃ e ∈ stMulti.store, e.key = keyItineraryList "43" fA)
    exact ⟨e, h.2.1 e he hk, hk⟩
  · obtain ⟨e, he, hk⟩ :=
      (by decide : ∃ e ∈ stMulti.store, e.key = keyPublicList fA)
    exact ⟨e, h.2.2 e he hk, hk⟩

/-! ### The itinerary controller (`itineraryController.js`) -/

/-- An itinerary document in the persistent store: its id, the owning user's
id (`userId`, a MongoDB ObjectId hex string) and its payload. -/
structure ItinRec where
  id : String
  userId : String
  doc : Json

/-- The state a request handler acts on: the persistent store and the Redis
client state. -/
structure Ctx where
  db : List ItinRec
  redis : RedisState

/-- Outcome of the single-itinerary read handler, instrumented with how many
persistent-store reads (`Itinerary.findById`) and how many entity-cache reads
(`getCachedItinerary`) the handler performed. -/
structure ReadTrace where
  status : Nat
  ctx : Ctx
  dbReads : Nat
  cacheGets : Nat

/-- `getItinerary` (GET /api/itineraries/:id): loads the itinerary from the
persistent store (one `findById`), 404 when absent, 403 when not owned by the
requesting user, otherwise caches it and returns 200.  The handler performs
its store read unconditionally and never calls `getCachedItinerary`. -/
def getItinerary (ctx : Ctx) (reqUserId id : String) : ReadTrace :=
  match ctx.db.find? (fun r => r.id == id) with
  | none => ⟨404, ctx, 1, 0⟩
  | some itin =>
    if itin.userId ≠ reqUserId then ⟨403, ctx, 1, 0⟩
    else ⟨200, ⟨ctx.db, cacheItinerary ctx.redis itin.id itin.doc⟩, 1, 0⟩

/-- `createItinerary` (POST /api/itineraries): inserts the document owned by
the requesting user, then invalidates that user's list caches (and nothing
else), returning 201. -/
def createItinerary (ctx : Ctx) (reqUserId newId : String) (body : Json) : Nat × Ctx :=
  (201, ⟨ctx.db ++ [⟨newId, reqUserId, body⟩],
    invalidateUserItineraryCaches ctx.redis reqUserId⟩)

/-- `updateItinerary` (PUT /api/itineraries/:id): 404 when absent, 403 when
not owned; otherwise updates the document, invalidates the single-itinerary
key and the owner's list caches, and returns 200.  No public list cache is
touched. -/
def updateItinerary (ctx : Ctx) (reqUserId id : String) (body : Json) : Nat × Ctx :=
  match ctx.db.find? (fun r => r.id == id) with
  | none => (404, ctx)
  | some itin =>
    if itin.userId ≠ reqUserId then (403, ctx)
    else
      (200, ⟨ctx.db.map (fun r => if r.id = id then ⟨r.id, r.userId, body⟩ else r),
        invalidateUserItineraryCaches
          (invalidateItineraryCache ctx.redis itin.id) reqUserId⟩)

/-- `deleteItinerary` (DELETE /api/itineraries/:id): 404 when absent, 403
when not owned; otherwise deletes the document, invalidates the
single-itinerary key and the owner's list caches, and returns 200.  No public
list cache is touched. -/
def deleteItinerary (ctx : Ctx) (reqUserId id : String) : Nat × Ctx :=
  match ctx.db.find? (fun r => r.id == id) with
  | none => (404, ctx)
  | some itin =>
    if itin.userId ≠ reqUserId then (403, ctx)
    else
      (200, ⟨ctx.db.filter (fun r => decide (r.id ≠ id)),
        invalidateUserItineraryCaches
          (invalidateItineraryCache ctx.redis itin.id) reqUserId⟩)

/-- Claim C7: a successful update (and likewise delete) of an itinerary owned
by the requesting user leaves no `itinerary:<id>` entry and no list-cache
entry under the owner's scope in the store when it returns success. -/
theorem c7_mutations_invalidate (ctx : Ctx) (reqU id : String) (body : Json)
    (hc : ctx.redis.connected = true) (hf : ctx.redis.failing = false) :
    ((updateItinerary ctx reqU id body).1 = 200 →
      ∀ e ∈ (updateItinerary ctx reqU id body).2.redis.store,
        e.key ≠ keyItinerary id ∧ ¬ (listKeyPre reqU <+: e.key)) ∧
    ((deleteItinerary ctx reqU id).1 = 200 →
      ∀ e ∈ (deleteItinerary ctx reqU id).2.redis.store,
        e.key ≠ keyItinerary id ∧ ¬ (listKeyPre reqU <+: e.key)) := by
  rcases hfind : ctx.db.find? (fun r => r.id == id) with _ | itin
  · constructor <;> · intro habs; simp [updateItinerary, deleteItinerary, hfind] at habs
  · have hid : itin.id = id := by
      have hp := List.find?_some hfind
      simpa using hp
    by_cases howner : itin.userId ≠ reqU
    · constructor <;>
        · intro habs
          simp [updateItinerary, deleteItinerary, hfind, howner] at habs
    · have h1 := @invalidateItineraryCache_eq ctx.redis itin.id hc hf
      have hc1 : (invalidateItineraryCache ctx.redis itin.id).connected = true := by
        rw [h1]; exact hc
      have hf1 : (invalidateItineraryCache ctx.redis itin.id).failing = false := by
        rw [h1]; exact hf
      have key : ∀ e ∈ (invalidateUserItineraryCaches
          (invalidateItineraryCache ctx.redis itin.id) reqU).store,
          e.key ≠ keyItinerary id ∧ ¬ (listKeyPre reqU <+: e.key) := by
        intro e he
        obtain ⟨he1, hnp⟩ := (mem_invUserLists_iff hc1 hf1 e).1 he
        rw [h1] at he1
        simp only [List.mem_filter, decide_eq_true_eq] at he1
        exact ⟨hid ▸ he1.2, hnp⟩
      constructor
      · intro _ e he
        refine key e ?_
        simpa [updateItinerary, hfind, howner] using he
      · intro _ e he
        refine key e ?_
        simpa [deleteItinerary, hfind, howner] using he

/-- A context whose store holds the itinerary entity entry and one list entry
for its owner, both populated by the module's own operations. -/
def ctxFull : Ctx :=
  ⟨[⟨"it1", "u1", Json.str "doc"⟩],
    cacheItinerary (cacheItineraryList stEmpty "u1" fA (Json.str "env")) "it1"
      (Json.str "doc")⟩

/-- Claim C7, witness: a concrete successful update leaves no entity entry
for the itinerary, and a concrete successful delete leaves no list entry
under the owner's scope. -/
theorem c7_mutations_invalidate_check :
    (updateItinerary ctxFull "u1" "it1" (Json.str "x")).1 = 200 ∧
    (¬ ∃ e ∈ (updateItinerary ctxFull "u1" "it1" (Json.str "x")).2.redis.store,
      e.key = keyItinerary "it1") ∧
    (¬ ∃ e ∈ (deleteItinerary ctxFull "u1" "it1").2.redis.store,
      listKeyPre "u1" <+: e.key) := by
  have h := c7_mutations_invalidate ctxFull "u1" "it1" (Json.str "x") rfl rfl
  refine ⟨by decide, ?_, ?_⟩
  · rintro ⟨e, he, hk⟩
    exact (h.1 (by decide) e he).1 hk
  · rintro ⟨e, he, hp⟩
    exact (h.2 (by decide) e he).2 hp

/-- A context with one itinerary owned by user u1 and a public list entry
cached for the spec's example filters. -/
def ctxPub : Ctx :=
  ⟨[⟨"it1", "u1", Json.str "doc"⟩], cachePublicItineraries stEmpty fA (Json.str "pub")⟩

/-- Claim C2: the mutating handlers never call
`invalidatePublicItineraryCaches`; after a successful update (and likewise
delete and create) the `public_itineraries:<enc>` entry cached before the
mutation is still in the store, contrary to the claim that no pre-mutation
public key remains. -/
theorem c2_public_not_invalidated :
    (updateItinerary ctxPub "u1" "it1" (Json.str "new")).1 = 200 ∧
    (∃ e ∈ (updateItinerary ctxPub "u1" "it1" (Json.str "new")).2.redis.store,
      e.key = keyPublicList fA) ∧
    (∃ e ∈ (deleteItinerary ctxPub "u1" "it1").2.redis.store,
      e.key = keyPublicList fA) ∧
    (∃ e ∈ (createItinerary ctxPub "u1" "it2" (Json.str "d2")).2.redis.store,
      e.key = keyPublicList fA) := by
  decide

/-- A context whose entity cache already holds `itinerary:it1`, populated by
the module's own `cacheItinerary`. -/
def ctxCached : Ctx :=
  ⟨[⟨"it1", "u1", Json.str "doc"⟩], cacheItinerary stEmpty "it1" (Json.str "doc")⟩

/-- Claim C3: `getItinerary` does not check the entity cache before the
persistent store — with `itinerary:it1` already cached, the handler still
performs one persistent-store read and zero `getCachedItinerary` calls. -/
theorem c3_get_skips_entity_cache :
    (∃ e ∈ ctxCached.redis.store, e.key = keyItinerary "it1") ∧
    (getItinerary ctxCached "u1" "it1").status = 200 ∧
    (getItinerary ctxCached "u1" "it1").dbReads = 1 ∧
    (getItinerary ctxCached "u1" "it1").cacheGets = 0 := by
  decide

end TravelCache
